import Mathlib

set_option linter.unusedSectionVars false
set_option synthInstance.maxSize 512

/-!
Verification development for the TripGo trip-tracking server.

The definitions below are a shallow embedding of the server's trip
lifecycle (router `routes/trips.js`, handlers `createTrip`, `updateTrip`,
`endTrip`, `deleteTrip`, `addRoutePoint`, `addRoutePointsBulk`), of the
Mongoose `Trip` model (schema validation, `calculateMetrics`,
`calculateHaversineDistance`, the metric-recomputing `pre-save` hook and
`findActiveTrip`), of the `UserData` ledger updates issued by those
handlers, and of the reverse-geocoding cache in `utils/reverseGeocode.js`.

JavaScript client-side numbers are modelled by an arbitrary linear ordered
field with a floor function; the lifecycle theorems are stated generically
and instantiated at `ℚ` for concrete evaluation, while the haversine
distance itself is defined over `ℝ`.  Optional / possibly-missing request
fields are `Option` values, and JavaScript falsiness of a number
(`!x` true for `0` and for a missing field) or of a string (missing or
empty) is modelled explicitly.
-/

namespace TripGo

/-- One GPS sample, as stored in `tripPointSchema`. -/
structure Point where
  latitude : ℚ
  longitude : ℚ
  accuracy : ℚ
  timestamp : ℚ
deriving DecidableEq, Repr

/-- The `status` enum of `tripSchema`: `'active'` or `'completed'`. -/
inductive TripStatus where
  | active
  | completed
deriving DecidableEq, Repr

/-- The error taxonomy of the route handlers: 400 validation errors
(`invalidInput`), the 400 already-active / completed-trip conflicts
(`conflict`), 404 (`notFound`) and 500 responses produced when a Mongoose
operation throws, e.g. on schema validation failure (`serverError`). -/
inductive ErrKind where
  | invalidInput
  | conflict
  | notFound
  | serverError
deriving DecidableEq, Repr

deriving instance DecidableEq for Except

/-- `String.prototype.trim`: strip leading and trailing whitespace.
Defined structurally over the character list so that concrete instances
reduce. -/
def jsTrim (s : String) : String :=
  ⟨((s.data.dropWhile Char.isWhitespace).reverse.dropWhile
      Char.isWhitespace).reverse⟩

variable {α : Type} [LinearOrderedField α] [FloorRing α]

/-- The `roundDistance` closure appearing in `endTrip`, `addRoutePoint`
and `addRoutePointsBulk`:
`base = Math.floor(d); frac = d - base; base + (frac > 0.5 ? 1 : 0)`. -/
def roundDistance (d : α) : ℤ :=
  ⌊d⌋ + (if d - (⌊d⌋ : α) > 1/2 then 1 else 0)

/-- The loop of `calculateMetrics`: for `i = 1 .. route.length - 1` add the
pairwise distance of `route[i-1]` and `route[i]`. -/
def pairSum (hav : Point → Point → α) : List Point → α
  | p :: q :: rest => hav p q + pairSum hav (q :: rest)
  | _ => 0

/-- The distance part of `calculateMetrics`: `0` unless the route holds at
least two points, otherwise the sum of consecutive pairwise distances. -/
def computeDistance (hav : Point → Point → α) (route : List Point) : α :=
  if 2 ≤ route.length then pairSum hav route else 0

/-- One document of the Mongoose `Trip` collection.  Times are epoch
milliseconds (the value of `Date.prototype.getTime`). -/
structure Trip (α : Type) where
  tid : Nat
  userId : Nat
  purpose : String
  startTime : Int
  endTime : Option Int
  startOdometer : α
  endOdometer : Option α
  startLocation : Option String
  endLocation : Option String
  distance : α
  duration : Int
  route : List Point
  status : TripStatus
  averageSpeed : α
deriving DecidableEq, Repr

/-- `tripSchema.methods.calculateMetrics`: recompute `distance` from the
route; when `endTime` is set also recompute `duration`
(`Math.max(0, Math.floor((endTime - startTime) / 1000))`) and
`averageSpeed` (`duration > 0 ? distance / duration * 3.6 : 0`). -/
def calculateMetrics (hav : Point → Point → α) (t : Trip α) : Trip α :=
  let d := computeDistance hav t.route
  match t.endTime with
  | none => { t with distance := d }
  | some e =>
      let durSec : ℤ := ⌊((e - t.startTime : ℤ) : α) / 1000⌋
      let dur : ℤ := max 0 durSec
      { t with
          distance := d
          duration := dur
          averageSpeed := if 0 < dur then d / (dur : α) * (36/10) else 0 }

/-- Range validation of `tripPointSchema`: latitude in [-90, 90],
longitude in [-180, 180], accuracy nonnegative. -/
def validPoint (p : Point) : Bool :=
  decide (-90 ≤ p.latitude) && decide (p.latitude ≤ 90) &&
  decide (-180 ≤ p.longitude) && decide (p.longitude ≤ 180) &&
  decide (0 ≤ p.accuracy)

/-- Document validation of `tripSchema`, run by Mongoose on every save
before the metric-recomputing hook: required trimmed purpose of 3-200
characters, nonnegative odometer readings, the `endOdometer` custom
validator `!value || value >= this.startOdometer`, the `endTime` custom
validator `!value || value > this.startTime`, location length caps, point
ranges, and the nonnegativity minimums of the derived fields. -/
def tripValid (t : Trip α) : Bool :=
  decide (jsTrim t.purpose ≠ "") &&
  decide (3 ≤ (jsTrim t.purpose).length) && decide ((jsTrim t.purpose).length ≤ 200) &&
  decide (0 ≤ t.startOdometer) &&
  (match t.endOdometer with
   | none => true
   | some v => decide (0 ≤ v) && (decide (v = 0) || decide (t.startOdometer ≤ v))) &&
  (match t.endTime with
   | none => true
   | some e => decide (t.startTime < e)) &&
  (match t.startLocation with
   | none => true
   | some s => decide (s.length ≤ 500)) &&
  (match t.endLocation with
   | none => true
   | some s => decide (s.length ≤ 500)) &&
  t.route.all validPoint &&
  decide (0 ≤ t.distance) && decide (0 ≤ t.duration) && decide (0 ≤ t.averageSpeed)

/-- `document.save()`: validate, then run the `pre('save')` hook which
calls `calculateMetrics`.  A validation failure makes `save` throw, which
the handlers turn into a 500 response. -/
def save (hav : Point → Point → α) (t : Trip α) : Option (Trip α) :=
  if tripValid t then some (calculateMetrics hav t) else none

/-- One document of the `UserData` collection (the odometer ledger). -/
structure UserData (α : Type) where
  userId : Nat
  currentOdometer : α
  activeTrip : Option Nat
deriving DecidableEq, Repr

/-- The persistent store: the `Trip` and `UserData` collections plus a
fresh-id counter standing for MongoDB object-id generation. -/
structure DB (α : Type) where
  trips : List (Trip α)
  users : List (UserData α)
  nextId : Nat
deriving DecidableEq, Repr

/-- The query predicate of `Trip.findActiveTrip`:
`{ userId, status: 'active' }`. -/
def activePred (u : Nat) (t : Trip α) : Bool :=
  decide (t.userId = u) && decide (t.status = TripStatus.active)

/-- `tripSchema.statics.findActiveTrip`: `findOne({userId, status:'active'})`. -/
def findActiveTrip (db : DB α) (u : Nat) : Option (Trip α) :=
  db.trips.find? (activePred u)

/-- Replacing the stored document that a committed `save` wrote back:
every stored trip with the saved trip's id becomes the saved trip. -/
def replaceTrip (ts : List (Trip α)) (t2 : Trip α) : List (Trip α) :=
  ts.map (fun x => if x.tid = t2.tid then t2 else x)

/-- JavaScript falsiness of an optional string field (`!s`):
missing or empty. -/
def strFalsy : Option String → Bool
  | none => true
  | some s => decide (s = "")

/-- JavaScript truthiness of an optional string field (`if (s)`):
present and nonempty. -/
def strTruthy (o : Option String) : Bool := !strFalsy o

/-- JavaScript falsiness of an optional numeric field (`!x`):
missing or zero. -/
def numFalsy : Option α → Bool
  | none => true
  | some v => decide (v = 0)

/-- Body of `POST /api/trips` (`createTrip`). -/
structure CreateReq (α : Type) where
  purpose : Option String
  startOdometer : Option α
  route : Option (List Point)

/-- Body of `POST /api/trips/active/route` (`addRoutePoint`); each field
may be missing. -/
structure FixReq where
  latitude : Option ℚ
  longitude : Option ℚ
  accuracy : Option ℚ
  timestamp : Option ℚ

/-- One entry of the `points` array of `addRoutePointsBulk`; a field is
`none` when it is missing or not `typeof === 'number'`. -/
structure RawPoint where
  latitude : Option ℚ
  longitude : Option ℚ
  accuracy : Option ℚ
  timestamp : Option ℚ

/-- Body of `PUT /api/trips/:id/end` (`endTrip`). -/
structure EndReq (α : Type) where
  endOdometer : Option α
  endLocation : Option String

/-- Body of `PUT /api/trips/:id` (`updateTrip`). -/
structure UpdateReq where
  route : Option (List Point)
  startLocation : Option String
  endLocation : Option String

/-- The trip document built by `Trip.create` in `createTrip`: purpose
trimmed, `Number(startOdometer)`, `route || []`, status `'active'`,
`startTime` defaulted to now, derived fields at their schema defaults,
and the best-effort geocoded start location. -/
def initialTrip (nextId : Nat) (u : Nat) (now : Int) (rq : CreateReq α)
    (geo : Option String) : Trip α :=
  { tid := nextId
    userId := u
    purpose := jsTrim (rq.purpose.getD "")
    startTime := now
    endTime := none
    startOdometer := rq.startOdometer.getD 0
    endOdometer := none
    startLocation :=
      match (rq.route.getD []).head? with
      | some _ => geo
      | none => none
    endLocation := none
    distance := 0
    duration := 0
    route := rq.route.getD []
    status := TripStatus.active
    averageSpeed := 0 }

/-- `POST /api/trips` (`createTrip`): reject when `!purpose ||
!startOdometer`; reject with the already-active conflict when
`findActiveTrip` finds a trip; otherwise geocode the first route point
(best effort, oracle `geo`), create and save the trip, and upsert the
ledger with `$set: {activeTrip}` and `$max: {currentOdometer}`. -/
def createTrip (hav : Point → Point → α) (db : DB α) (now : Int) (u : Nat)
    (rq : CreateReq α) (geo : Option String) : Except ErrKind (Trip α) × DB α :=
  if strFalsy rq.purpose || numFalsy rq.startOdometer then
    (Except.error ErrKind.invalidInput, db)
  else if (findActiveTrip db u).isSome then
    (Except.error ErrKind.conflict, db)
  else
    let t0 := initialTrip db.nextId u now rq geo
    match save hav t0 with
    | none => (Except.error ErrKind.serverError, db)
    | some t1 =>
        let users' := if db.users.any (fun r => decide (r.userId = u)) then
            db.users.map (fun r =>
              if r.userId = u then
                { r with
                    activeTrip := some t1.tid
                    currentOdometer := max r.currentOdometer (rq.startOdometer.getD 0) }
              else r)
          else
            db.users ++ [{ userId := u
                           currentOdometer := max 0 (rq.startOdometer.getD 0)
                           activeTrip := some t1.tid }]
        (Except.ok t1,
         { trips := db.trips ++ [t1], users := users', nextId := db.nextId + 1 })

/-- The defensive `UserData` sync performed by both append handlers:
`findOneAndUpdate({userId, activeTrip: {$ne: trip._id}},
{$set: {activeTrip: trip._id}})` (no upsert). -/
def syncActiveTrip (users : List (UserData α)) (u : Nat) (tid : Nat) :
    List (UserData α) :=
  users.map (fun r =>
    if r.userId = u ∧ r.activeTrip ≠ some tid then { r with activeTrip := some tid }
    else r)

/-- The live-odometer update performed by both append handlers after a
successful save: `findOneAndUpdate({userId},
{$set: {currentOdometer: startOdometer + roundDistance(distance)}})`
(no upsert). -/
def setLiveOdometer (users : List (UserData α)) (u : Nat) (v : α) :
    List (UserData α) :=
  users.map (fun r => if r.userId = u then { r with currentOdometer := v } else r)

/-- The `newPoint` object built by `addRoutePoint` out of
`Number(latitude)` etc. -/
def mkPoint (rq : FixReq) : Point :=
  { latitude := rq.latitude.getD 0
    longitude := rq.longitude.getD 0
    accuracy := rq.accuracy.getD 0
    timestamp := rq.timestamp.getD 0 }

/-- `POST /api/trips/active/route` (`addRoutePoint`): reject when any of
the four fields is JavaScript-falsy; 404 without an active trip; sync the
ledger's `activeTrip`; push the point and save (schema validation may
fail); then set the live odometer to `startOdometer +
roundDistance(distance)`. -/
def addRoutePoint (hav : Point → Point → α) (db : DB α) (u : Nat)
    (rq : FixReq) : Except ErrKind (Trip α) × DB α :=
  if numFalsy rq.latitude || numFalsy rq.longitude ||
      numFalsy rq.accuracy || numFalsy rq.timestamp then
    (Except.error ErrKind.invalidInput, db)
  else
    match findActiveTrip db u with
    | none => (Except.error ErrKind.notFound, db)
    | some t =>
        let db1 : DB α := { db with users := syncActiveTrip db.users u t.tid }
        match save hav { t with route := t.route ++ [mkPoint rq] } with
        | none => (Except.error ErrKind.serverError, db1)
        | some t2 =>
            (Except.ok t2,
             { db1 with
                 trips := replaceTrip db1.trips t2
                 users := setLiveOdometer db1.users u
                   (t2.startOdometer + (roundDistance t2.distance : α)) })

/-- The sanitising loop of `addRoutePointsBulk`: keep exactly the entries
whose four fields are all numbers. -/
def sanitizePoints (pts : List RawPoint) : List Point :=
  pts.filterMap (fun p =>
    match p.latitude, p.longitude, p.accuracy, p.timestamp with
    | some la, some lo, some ac, some ts =>
        some { latitude := la, longitude := lo, accuracy := ac, timestamp := ts }
    | _, _, _, _ => none)

/-- `POST /api/trips/active/route/bulk` (`addRoutePointsBulk`): reject an
empty `points` array; 404 without an active trip; sync the ledger's
`activeTrip`; drop entries with non-number fields and reject when nothing
remains; append the survivors in order and save; then set the live
odometer. -/
def addRoutePointsBulk (hav : Point → Point → α) (db : DB α) (u : Nat)
    (pts : List RawPoint) : Except ErrKind (Trip α) × DB α :=
  if pts.isEmpty then (Except.error ErrKind.invalidInput, db)
  else
    match findActiveTrip db u with
    | none => (Except.error ErrKind.notFound, db)
    | some t =>
        let db1 : DB α := { db with users := syncActiveTrip db.users u t.tid }
        if (sanitizePoints pts).isEmpty then (Except.error ErrKind.invalidInput, db1)
        else
          match save hav { t with route := t.route ++ sanitizePoints pts } with
          | none => (Except.error ErrKind.serverError, db1)
          | some t2 =>
              (Except.ok t2,
               { db1 with
                   trips := replaceTrip db1.trips t2
                   users := setLiveOdometer db1.users u
                     (t2.startOdometer + (roundDistance t2.distance : α)) })

/-- The completed document written by `endTrip` before saving:
`roundedDistance = roundDistance(trip.distance || 0)`,
`computedEndOdo = startOdometer + roundedDistance`,
`finalEndOdometer = Math.max(computedEndOdo, startOdometer)`, end time set
to now, status `'completed'`, and the end location resolved from the
client value when truthy, else from a best-effort geocode (oracle `geo`)
of the last route point when one exists. -/
def endedTrip (t : Trip α) (now : Int) (rq : EndReq α) (geo : Option String) :
    Trip α :=
  { t with
      endTime := some now
      endOdometer :=
        some (max (t.startOdometer + (roundDistance t.distance : α))
          t.startOdometer)
      status := TripStatus.completed
      endLocation :=
        if strTruthy rq.endLocation then rq.endLocation
        else
          match t.route.getLast? with
          | some _ => (match geo with
                       | some n => some n
                       | none => t.endLocation)
          | none => t.endLocation }

/-- `PUT /api/trips/:id/end` (`endTrip`): find the user's active trip with
that id (else 404); round the server-side distance; store `endOdometer`
as `max(startOdometer + roundedDistance, startOdometer)` — the
destructured client `endOdometer` is never used; set `endTime`, status
`'completed'`, resolve the end location (client value if truthy, else a
best-effort geocode of the last route point, oracle `geo`); save; then
upsert the ledger with `$inc: {currentOdometer: roundedDistance}` and
`$set: {activeTrip: null}`. -/
def endTrip (hav : Point → Point → α) (db : DB α) (u : Nat) (tid : Nat)
    (now : Int) (rq : EndReq α) (geo : Option String) :
    Except ErrKind (Trip α) × DB α :=
  match db.trips.find? (fun t =>
      decide (t.tid = tid) && decide (t.userId = u) &&
      decide (t.status = TripStatus.active)) with
  | none => (Except.error ErrKind.notFound, db)
  | some t =>
      match save hav (endedTrip t now rq geo) with
      | none => (Except.error ErrKind.serverError, db)
      | some t2 =>
          let users' := if db.users.any (fun r => decide (r.userId = u)) then
              db.users.map (fun r =>
                if r.userId = u then
                  { r with
                      currentOdometer := r.currentOdometer + (roundDistance t.distance : α)
                      activeTrip := none }
                else r)
            else
              db.users ++ [{ userId := u
                             currentOdometer := 0 + (roundDistance t.distance : α)
                             activeTrip := none }]
          (Except.ok t2,
           { db with trips := replaceTrip db.trips t2, users := users' })

/-- The field replacement performed by `updateTrip`: the route when the
field is present (a JavaScript array is always truthy) and each location
when truthy. -/
def updatedTrip (t : Trip α) (rq : UpdateReq) : Trip α :=
  { t with
      route := rq.route.getD t.route
      startLocation :=
        if strTruthy rq.startLocation then rq.startLocation
        else t.startLocation
      endLocation :=
        if strTruthy rq.endLocation then rq.endLocation
        else t.endLocation }

/-- `PUT /api/trips/:id` (`updateTrip`): 404 when the trip is not the
caller's; reject mutation of a completed trip; replace the route when the
field is present (a JavaScript array is always truthy) and each location
when truthy; save. -/
def updateTrip (hav : Point → Point → α) (db : DB α) (u : Nat) (tid : Nat)
    (rq : UpdateReq) : Except ErrKind (Trip α) × DB α :=
  match db.trips.find? (fun t => decide (t.tid = tid) && decide (t.userId = u)) with
  | none => (Except.error ErrKind.notFound, db)
  | some t =>
      if t.status = TripStatus.completed then (Except.error ErrKind.conflict, db)
      else
        match save hav (updatedTrip t rq) with
        | none => (Except.error ErrKind.serverError, db)
        | some t2 => (Except.ok t2, { db with trips := replaceTrip db.trips t2 })

/-- `DELETE /api/trips/:id` (`deleteTrip`): 404 when the trip is not the
caller's, else `findByIdAndDelete`.  The ledger is never touched. -/
def deleteTrip (db : DB α) (u : Nat) (tid : Nat) :
    Except ErrKind (Trip α) × DB α :=
  match db.trips.find? (fun t => decide (t.tid = tid) && decide (t.userId = u)) with
  | none => (Except.error ErrKind.notFound, db)
  | some t =>
      (Except.ok t,
       { db with trips := db.trips.filter (fun x => decide (x.tid ≠ tid)) })

/-- One request against the trip lifecycle. -/
inductive Op (α : Type) where
  | create (u : Nat) (now : Int) (rq : CreateReq α) (geo : Option String)
  | addPoint (u : Nat) (rq : FixReq)
  | addBulk (u : Nat) (pts : List RawPoint)
  | finish (u : Nat) (tid : Nat) (now : Int) (rq : EndReq α) (geo : Option String)
  | change (u : Nat) (tid : Nat) (rq : UpdateReq)
  | remove (u : Nat) (tid : Nat)

/-- Dispatch one lifecycle request against the store. -/
def applyOp (hav : Point → Point → α) (db : DB α) :
    Op α → Except ErrKind (Trip α) × DB α
  | Op.create u now rq geo => createTrip hav db now u rq geo
  | Op.addPoint u rq => addRoutePoint hav db u rq
  | Op.addBulk u pts => addRoutePointsBulk hav db u pts
  | Op.finish u tid now rq geo => endTrip hav db u tid now rq geo
  | Op.change u tid rq => updateTrip hav db u tid rq
  | Op.remove u tid => deleteTrip db u tid

/-- The empty store. -/
def db0 : DB α := { trips := [], users := [], nextId := 0 }

/-- States of the store produced by sequences of lifecycle requests. -/
inductive Reachable (hav : Point → Point → α) : DB α → Prop where
  | init : Reachable hav db0
  | step (db : DB α) (op : Op α) :
      Reachable hav db → Reachable hav (applyOp hav db op).2

/-- The state invariant maintained by the lifecycle handlers: each user
has at most one active trip, derived distances agree with the current
route, active trips have no end time and zero derived duration and speed,
and stored trip ids are fresh-bounded and pairwise distinct. -/
structure Inv (hav : Point → Point → α) (db : DB α) : Prop where
  activeLe : ∀ u, (db.trips.filter (activePred u)).length ≤ 1
  distOk : ∀ t ∈ db.trips, t.distance = computeDistance hav t.route
  activeZero : ∀ t ∈ db.trips, t.status = TripStatus.active →
      t.endTime = none ∧ t.duration = 0 ∧ t.averageSpeed = 0
  tidLt : ∀ t ∈ db.trips, t.tid < db.nextId
  tidNodup : (db.trips.map Trip.tid).Pairwise (fun a b => a ≠ b)

/-- `Math.atan2(y, x)`: the angle of the vector `(x, y)`, in
`(-pi, pi]`, with `atan2 0 0 = 0`. -/
noncomputable def atan2 (y x : ℝ) : ℝ :=
  if 0 < x then Real.arctan (y / x)
  else if x < 0 then
    (if 0 ≤ y then Real.arctan (y / x) + Real.pi
     else Real.arctan (y / x) - Real.pi)
  else
    (if 0 < y then Real.pi / 2
     else if y < 0 then -(Real.pi / 2)
     else 0)

/-- `tripSchema.methods.calculateHaversineDistance`: great-circle distance
of two fixes by the haversine formula with Earth radius 6371 km. -/
noncomputable def calculateHaversineDistance (p1 p2 : Point) : ℝ :=
  let R : ℝ := 6371
  let dLat : ℝ := ((p2.latitude : ℝ) - (p1.latitude : ℝ)) * Real.pi / 180
  let dLon : ℝ := ((p2.longitude : ℝ) - (p1.longitude : ℝ)) * Real.pi / 180
  let a : ℝ :=
    Real.sin (dLat / 2) * Real.sin (dLat / 2) +
      Real.cos ((p1.latitude : ℝ) * Real.pi / 180) *
        Real.cos ((p2.latitude : ℝ) * Real.pi / 180) *
        (Real.sin (dLon / 2) * Real.sin (dLon / 2))
  let c : ℝ := 2 * atan2 (Real.sqrt a) (Real.sqrt (1 - a))
  R * c

/-! ## Reverse geocoding (`utils/reverseGeocode.js`) -/

/-- `CACHE_TTL_MS = 1000 * 60 * 60 * 6` (six hours). -/
def CACHE_TTL_MS : Int := 1000 * 60 * 60 * 6

/-- `Number.prototype.toFixed(5)` as a key component: the sign prefix of
the printed string together with the magnitude rounded to five decimal
places (ties toward the larger scaled integer). -/
def fix5 (q : ℚ) : Bool × ℤ :=
  (decide (q < 0), round (|q| * 100000))

/-- `cacheKey(lat, lon)`: the template string
of the two `toFixed(5)` renderings. -/
def cacheKey (lat lon : ℚ) : (Bool × ℤ) × (Bool × ℤ) :=
  (fix5 lat, fix5 lon)

/-- One cache value: `{ name, timestamp }`. -/
structure CacheEntry where
  name : String
  timestamp : Int
deriving DecidableEq, Repr

/-- The in-memory `Map`, as an association list whose head wins. -/
abbrev Cache := List (((Bool × ℤ) × (Bool × ℤ)) × CacheEntry)

/-- `getCached`: return the entry's name when one exists for the key and
`now - entry.timestamp < CACHE_TTL_MS`. -/
def getCached (c : Cache) (now : Int) (lat lon : ℚ) : Option String :=
  match c.find? (fun e => decide (e.1 = cacheKey lat lon)) with
  | some e => if now - e.2.timestamp < CACHE_TTL_MS then some e.2.name else none
  | none => none

/-- `setCache`: `cache.set(key, {name, timestamp: Date.now()})`. -/
def setCache (c : Cache) (now : Int) (lat lon : ℚ) (name : String) : Cache :=
  (cacheKey lat lon, { name := name, timestamp := now }) ::
    c.filter (fun e => decide (e.1 ≠ cacheKey lat lon))

/-- The `address` object of a Nominatim `jsonv2` response; a field is
`none` when absent. -/
structure NominatimAddress where
  suburb : Option String
  neighbourhood : Option String
  quarter : Option String
  hamlet : Option String
  village : Option String
  town : Option String
  city : Option String
  municipality : Option String
  state_district : Option String
  state : Option String
  country : Option String
deriving DecidableEq, Repr

/-- A parsed Nominatim response body. -/
structure NominatimJson where
  address : Option NominatimAddress
  display_name : Option String
deriving DecidableEq, Repr

/-- `x || null` for an optional string: a present nonempty string, else
nothing. -/
def orNull : Option String → Option String
  | some s => if s = "" then none else some s
  | none => none

/-- The preference scan of `extractName`: first truthy field wins. -/
def firstTruthy : List (Option String) → Option String
  | [] => none
  | o :: rest =>
      match orNull o with
      | some s => some s
      | none => firstTruthy rest

/-- `extractName(json)`: nothing for an absent body; without an `address`
object fall back to `display_name || null`; otherwise the first truthy
field in the documented preference order, with the same fallback. -/
def extractName : Option NominatimJson → Option String
  | none => none
  | some j =>
      match j.address with
      | none => orNull j.display_name
      | some a =>
          match firstTruthy
              [a.suburb, a.neighbourhood, a.quarter, a.hamlet, a.village,
               a.town, a.city, a.municipality, a.state_district, a.state,
               a.country] with
          | some s => some s
          | none => orNull j.display_name

/-- `reverseGeocode(lat, lon)`: null coordinates short-circuit; a truthy
cache hit is returned without an upstream request; otherwise the upstream
service is queried (its parsed body, or `none` for any network/parse
failure, is the oracle `upstream`), and only a truthy extracted name is
written to the cache.  The result is the returned name, the cache
afterwards, and whether the upstream service was queried. -/
def reverseGeocode (c : Cache) (now : Int) (lat lon : Option ℚ)
    (upstream : Option NominatimJson) : Option String × Cache × Bool :=
  match lat, lon with
  | some la, some lo =>
      let fetch : Option String × Cache × Bool :=
        match extractName upstream with
        | some n =>
            if n = "" then (none, c, true)
            else (some n, setCache c now la lo n, true)
        | none => (none, c, true)
      (match getCached c now la lo with
       | some n => if n = "" then fetch else (some n, c, false)
       | none => fetch)
  | _, _ => (none, c, false)

/-! ## Concrete fixtures used by the witness theorems -/

/-- A degenerate pairwise-distance engine for concrete evaluation. -/
def hav0 : Point → Point → ℚ := fun _ _ => 0

/-- A simple nonnegative pairwise-distance engine for concrete
evaluation. -/
def hav1 : Point → Point → ℚ := fun p q => |q.latitude - p.latitude|

/-- A concrete valid start request. -/
def rqStart : CreateReq ℚ :=
  { purpose := some "Business trip"
    startOdometer := some 100
    route := some [⟨1, 2, 3, 4⟩, ⟨3/2, 2, 3, 5⟩] }

/-- The store after one successful start request against the empty
store. -/
def dbOne : DB ℚ := (applyOp hav1 db0 (Op.create 7 0 rqStart (some "Springfield"))).2

/-- The active trip stored in `dbOne`. -/
def tripOne : Trip ℚ :=
  { tid := 0
    userId := 7
    purpose := "Business trip"
    startTime := 0
    endTime := none
    startOdometer := 100
    endOdometer := none
    startLocation := some "Springfield"
    endLocation := none
    distance := 1/2
    duration := 0
    route := [⟨1, 2, 3, 4⟩, ⟨3/2, 2, 3, 5⟩]
    status := TripStatus.active
    averageSpeed := 0 }

/-- The completed trip produced by ending `tripOne` at time 1000. -/
def tripOneEnded : Trip ℚ :=
  { tid := 0
    userId := 7
    purpose := "Business trip"
    startTime := 0
    endTime := some 1000
    startOdometer := 100
    endOdometer := some 100
    startLocation := some "Springfield"
    endLocation := some "Shelbyville"
    distance := 1/2
    duration := 1
    route := [⟨1, 2, 3, 4⟩, ⟨3/2, 2, 3, 5⟩]
    status := TripStatus.completed
    averageSpeed := 9/5 }

/-- The store after ending `tripOne`. -/
def dbOneEnded : DB ℚ :=
  { trips := [tripOneEnded]
    users := [{ userId := 7, currentOdometer := 100, activeTrip := none }]
    nextId := 1 }

/-- A store holding one active trip of user 7, used to exercise the
conflict and append paths. -/
def tripSeven : Trip ℚ :=
  { tid := 0
    userId := 7
    purpose := "Business trip"
    startTime := 0
    endTime := none
    startOdometer := 5
    endOdometer := none
    startLocation := none
    endLocation := none
    distance := 0
    duration := 0
    route := []
    status := TripStatus.active
    averageSpeed := 0 }

/-- The store containing just `tripSeven`. -/
def dbSeven : DB ℚ :=
  { trips := [tripSeven]
    users := []
    nextId := 1 }

/-- A start request with a negative odometer reading. -/
def rqNeg : CreateReq ℚ :=
  { purpose := some "Business trip"
    startOdometer := some (-5)
    route := none }

/-- A start request with a zero odometer reading. -/
def rqZero : CreateReq ℚ :=
  { purpose := some "Business trip"
    startOdometer := some 0
    route := none }

/-- The trip obtained by bulk-appending the all-zero fix to `tripSeven`. -/
def tripSevenZeroFix : Trip ℚ :=
  { tid := 0
    userId := 7
    purpose := "Business trip"
    startTime := 0
    endTime := none
    startOdometer := 5
    endOdometer := none
    startLocation := none
    endLocation := none
    distance := 0
    duration := 0
    route := [⟨0, 0, 0, 1⟩]
    status := TripStatus.active
    averageSpeed := 0 }

/-- A ledger-only store: user 7 has a running odometer of 80 and no
active trip. -/
def dbLedger : DB ℚ :=
  { trips := []
    users := [{ userId := 7, currentOdometer := 80, activeTrip := none }]
    nextId := 0 }

/-- A start request with odometer reading 100 and no initial route. -/
def rqHundred : CreateReq ℚ :=
  { purpose := some "Business trip"
    startOdometer := some 100
    route := none }

/-- The trip created by `rqHundred` against `dbLedger`. -/
def tripHundred : Trip ℚ :=
  { tid := 0
    userId := 7
    purpose := "Business trip"
    startTime := 0
    endTime := none
    startOdometer := 100
    endOdometer := none
    startLocation := none
    endLocation := none
    distance := 0
    duration := 0
    route := []
    status := TripStatus.active
    averageSpeed := 0 }

/-- The store after starting `rqHundred` against `dbLedger`: the ledger
floor was raised from 80 to 100. -/
def dbLedgerAfter : DB ℚ :=
  { trips := [tripHundred]
    users := [{ userId := 7, currentOdometer := 100, activeTrip := some 0 }]
    nextId := 1 }

/-- A completed real-valued trip with an empty route, for exercising the
duration computation. -/
def c4Trip : Trip ℝ :=
  { tid := 0
    userId := 1
    purpose := "abc"
    startTime := 0
    endTime := some 5000
    startOdometer := 0
    endOdometer := none
    startLocation := none
    endLocation := none
    distance := 0
    duration := 0
    route := []
    status := TripStatus.completed
    averageSpeed := 0 }

end TripGo

namespace TripGo

/-! ## Helper lemmas -/

theorem activePred_eq_true {u : Nat} {α : Type} [LinearOrderedField α]
    {t : Trip α} :
    activePred u t = true ↔ t.userId = u ∧ t.status = TripStatus.active := by
  simp [activePred]

variable {α : Type} [LinearOrderedField α] [FloorRing α]

theorem pairSum_nonneg (hav : Point → Point → α)
    (hnn : ∀ p q, 0 ≤ hav p q) : ∀ l, 0 ≤ pairSum hav l := by
  intro l
  induction l with
  | nil => simp [pairSum]
  | cons p rest ih =>
      cases rest with
      | nil => simp [pairSum]
      | cons q rest' =>
          have h1 := hnn p q
          have h2 := ih
          simp only [pairSum] at h2 ⊢
          positivity

theorem computeDistance_nonneg (hav : Point → Point → α)
    (hnn : ∀ p q, 0 ≤ hav p q) (route : List Point) :
    0 ≤ computeDistance hav route := by
  unfold computeDistance
  split
  · exact pairSum_nonneg hav hnn route
  · exact le_refl 0

theorem pairSum_eq_zip_sum (hav : Point → Point → α) :
    ∀ l : List Point,
      pairSum hav l = ((l.zip l.tail).map (fun pq => hav pq.1 pq.2)).sum := by
  intro l
  induction l with
  | nil => simp [pairSum]
  | cons p rest ih =>
      cases rest with
      | nil => simp [pairSum]
      | cons q rest' =>
          simp only [pairSum, List.tail_cons, List.zip_cons_cons, List.map_cons,
            List.sum_cons]
          rw [ih]
          simp

theorem computeDistance_eq_pairSum (hav : Point → Point → α)
    (route : List Point) : computeDistance hav route = pairSum hav route := by
  unfold computeDistance
  split
  · rfl
  · rename_i h
    cases route with
    | nil => simp [pairSum]
    | cons p rest =>
        cases rest with
        | nil => simp [pairSum]
        | cons q rest' =>
            exfalso
            apply h
            simp only [List.length_cons]
            omega

theorem calculateMetrics_route (hav : Point → Point → α) (t : Trip α) :
    (calculateMetrics hav t).route = t.route := by
  cases h : t.endTime <;> simp [calculateMetrics, h]

theorem calculateMetrics_tid (hav : Point → Point → α) (t : Trip α) :
    (calculateMetrics hav t).tid = t.tid := by
  cases h : t.endTime <;> simp [calculateMetrics, h]

theorem calculateMetrics_userId (hav : Point → Point → α) (t : Trip α) :
    (calculateMetrics hav t).userId = t.userId := by
  cases h : t.endTime <;> simp [calculateMetrics, h]

theorem calculateMetrics_status (hav : Point → Point → α) (t : Trip α) :
    (calculateMetrics hav t).status = t.status := by
  cases h : t.endTime <;> simp [calculateMetrics, h]

theorem calculateMetrics_endTime (hav : Point → Point → α) (t : Trip α) :
    (calculateMetrics hav t).endTime = t.endTime := by
  cases h : t.endTime <;> simp [calculateMetrics, h]

theorem calculateMetrics_startOdometer (hav : Point → Point → α) (t : Trip α) :
    (calculateMetrics hav t).startOdometer = t.startOdometer := by
  cases h : t.endTime <;> simp [calculateMetrics, h]

theorem calculateMetrics_endOdometer (hav : Point → Point → α) (t : Trip α) :
    (calculateMetrics hav t).endOdometer = t.endOdometer := by
  cases h : t.endTime <;> simp [calculateMetrics, h]

theorem calculateMetrics_distance (hav : Point → Point → α) (t : Trip α) :
    (calculateMetrics hav t).distance = computeDistance hav t.route := by
  cases h : t.endTime <;> simp [calculateMetrics, h]

theorem calculateMetrics_duration_of_none (hav : Point → Point → α)
    (t : Trip α) (h : t.endTime = none) :
    (calculateMetrics hav t).duration = t.duration := by
  simp [calculateMetrics, h]

theorem calculateMetrics_averageSpeed_of_none (hav : Point → Point → α)
    (t : Trip α) (h : t.endTime = none) :
    (calculateMetrics hav t).averageSpeed = t.averageSpeed := by
  simp [calculateMetrics, h]

theorem calculateMetrics_duration_of_some (hav : Point → Point → α)
    (t : Trip α) (e : Int) (h : t.endTime = some e) :
    (calculateMetrics hav t).duration = max 0 ⌊((e - t.startTime : ℤ) : α) / 1000⌋ := by
  simp [calculateMetrics, h]

theorem calculateMetrics_averageSpeed_of_some (hav : Point → Point → α)
    (t : Trip α) (e : Int) (h : t.endTime = some e) :
    (calculateMetrics hav t).averageSpeed =
      (if 0 < max 0 ⌊((e - t.startTime : ℤ) : α) / 1000⌋ then
        computeDistance hav t.route /
          ((max 0 ⌊((e - t.startTime : ℤ) : α) / 1000⌋ : ℤ) : α) * (36/10)
      else 0) := by
  simp [calculateMetrics, h]

theorem save_eq_some (hav : Point → Point → α) (t t2 : Trip α)
    (h : save hav t = some t2) :
    tripValid t = true ∧ t2 = calculateMetrics hav t := by
  unfold save at h
  split at h
  · exact ⟨by assumption, (Option.some.injEq _ _ ▸ h).symm⟩
  · exact absurd h (by simp)

theorem roundDistance_nonneg (d : α) (hd : 0 ≤ d) : 0 ≤ roundDistance d := by
  unfold roundDistance
  have h1 : (0:ℤ) ≤ ⌊d⌋ := by
    rw [Int.le_floor]
    simpa using hd
  split <;> omega

theorem roundDistance_eq_ceil (d : α) : roundDistance d = ⌈d - 1/2⌉ := by
  unfold roundDistance
  have hfl := Int.floor_le d
  have hfl2 := Int.lt_floor_add_one d
  split
  · rename_i h
    symm
    rw [Int.ceil_eq_iff]
    constructor
    · push_cast
      linarith
    · push_cast
      linarith
  · rename_i h
    push_neg at h
    symm
    simp only [add_zero]
    rw [Int.ceil_eq_iff]
    exact ⟨by linarith, by linarith⟩



theorem mem_replaceTrip {ts : List (Trip α)} {t2 x : Trip α}
    (hx : x ∈ replaceTrip ts t2) : x = t2 ∨ x ∈ ts := by
  unfold replaceTrip at hx
  rcases List.mem_map.1 hx with ⟨y, hy, hxy⟩
  by_cases h : y.tid = t2.tid
  · left
    rw [← hxy, if_pos h]
  · right
    rw [← hxy, if_neg h]
    exact hy

theorem replaceTrip_map_tid (ts : List (Trip α)) (t2 : Trip α) :
    (replaceTrip ts t2).map Trip.tid = ts.map Trip.tid := by
  unfold replaceTrip
  rw [List.map_map]
  apply List.map_congr_left
  intro x _
  by_cases h : x.tid = t2.tid
  · simp [h]
  · simp [h]

theorem filter_length_map_le (p : Trip α → Bool) (f : Trip α → Trip α)
    (ts : List (Trip α)) (h : ∀ x ∈ ts, p (f x) = true → p x = true) :
    ((ts.map f).filter p).length ≤ (ts.filter p).length := by
  induction ts with
  | nil => simp
  | cons a l ih =>
      have hh := h a (by simp)
      have ih2 := ih (fun x hx hpx => h x (by simp [hx]) hpx)
      simp only [List.map_cons, List.filter_cons]
      by_cases hpf : p (f a) = true
      · rw [if_pos hpf, if_pos (hh hpf)]
        simpa using Nat.succ_le_succ ih2
      · rw [if_neg hpf]
        by_cases hpa : p a = true
        · rw [if_pos hpa]
          simp only [List.length_cons]
          exact Nat.le_succ_of_le ih2
        · rw [if_neg hpa]
          exact ih2

theorem tid_inj_of_pairwise {ts : List (Trip α)}
    (hp : (ts.map Trip.tid).Pairwise (fun a b => a ≠ b))
    {a b : Trip α} (ha : a ∈ ts) (hb : b ∈ ts) (h : a.tid = b.tid) : a = b := by
  induction ts with
  | nil => cases ha
  | cons x l ih =>
      rw [List.map_cons, List.pairwise_cons] at hp
      rcases List.mem_cons.1 ha with rfl | ha2
      · rcases List.mem_cons.1 hb with rfl | hb2
        · rfl
        · exact absurd h (hp.1 b.tid (List.mem_map_of_mem Trip.tid hb2))
      · rcases List.mem_cons.1 hb with rfl | hb2
        · exact absurd h.symm (hp.1 a.tid (List.mem_map_of_mem Trip.tid ha2))
        · exact ih hp.2 ha2 hb2

theorem inv_replace (hav : Point → Point → α) {db : DB α} (hInv : Inv hav db)
    {t t2 : Trip α} (ht : t ∈ db.trips)
    (htid : t2.tid = t.tid)
    (huser : t2.userId = t.userId)
    (hstat : t2.status = TripStatus.active → t.status = TripStatus.active)
    (hdist : t2.distance = computeDistance hav t2.route)
    (hzero : t2.status = TripStatus.active →
        t2.endTime = none ∧ t2.duration = 0 ∧ t2.averageSpeed = 0)
    (users' : List (UserData α)) :
    Inv hav { trips := replaceTrip db.trips t2, users := users', nextId := db.nextId } := by
  constructor
  · intro u
    refine le_trans ?_ (hInv.activeLe u)
    apply filter_length_map_le
    intro x hx hpf
    by_cases hxt : x.tid = t2.tid
    · rw [if_pos hxt] at hpf
      rcases activePred_eq_true.1 hpf with ⟨hu, hs⟩
      have hxeq : x = t :=
        tid_inj_of_pairwise hInv.tidNodup hx ht (by rw [hxt, htid])
      apply activePred_eq_true.2
      rw [hxeq]
      exact ⟨huser ▸ hu, hstat hs⟩
    · rwa [if_neg hxt] at hpf
  · intro x hx
    rcases mem_replaceTrip hx with rfl | hx2
    · exact hdist
    · exact hInv.distOk x hx2
  · intro x hx
    rcases mem_replaceTrip hx with rfl | hx2
    · exact hzero
    · exact hInv.activeZero x hx2
  · intro x hx
    rcases mem_replaceTrip hx with rfl | hx2
    · exact htid ▸ hInv.tidLt t ht
    · exact hInv.tidLt x hx2
  · rw [replaceTrip_map_tid]
    exact hInv.tidNodup

theorem initialTrip_fields (nid : Nat) (u : Nat) (now : Int) (rq : CreateReq α)
    (geo : Option String) :
    (initialTrip nid u now rq geo).tid = nid ∧
    (initialTrip nid u now rq geo).userId = u ∧
    (initialTrip nid u now rq geo).status = TripStatus.active ∧
    (initialTrip nid u now rq geo).endTime = none ∧
    (initialTrip nid u now rq geo).duration = 0 ∧
    (initialTrip nid u now rq geo).averageSpeed = 0 := by
  refine ⟨rfl, rfl, rfl, rfl, rfl, rfl⟩

theorem inv_createTrip (hav : Point → Point → α) {db : DB α}
    (hInv : Inv hav db) (now : Int) (u : Nat) (rq : CreateReq α)
    (geo : Option String) : Inv hav (createTrip hav db now u rq geo).2 := by
  unfold createTrip
  by_cases h1 : (strFalsy rq.purpose || numFalsy rq.startOdometer) = true
  · rw [if_pos h1]
    exact hInv
  rw [if_neg h1]
  by_cases hAct : (findActiveTrip db u).isSome = true
  · rw [if_pos hAct]
    exact hInv
  rw [if_neg hAct]
  rcases hsave : save hav (initialTrip db.nextId u now rq geo) with _ | t1
  · simp only [hsave]
    exact hInv
  simp only [hsave]
  obtain ⟨hval, ht1⟩ := save_eq_some hav _ t1 hsave
  have hroute1 : t1.userId = u := by
    rw [ht1, calculateMetrics_userId]
    rfl
  have htid1 : t1.tid = db.nextId := by
    rw [ht1, calculateMetrics_tid]
    rfl
  have hstat1 : t1.status = TripStatus.active := by
    rw [ht1, calculateMetrics_status]
    rfl
  have hend1 : t1.endTime = none := by
    rw [ht1, calculateMetrics_endTime]
    rfl
  have hnone : findActiveTrip db u = none := by
    rcases h : findActiveTrip db u with _ | t0
    · rfl
    · rw [h] at hAct
      simp at hAct
  constructor
  · intro u2
    simp only [List.filter_append]
    by_cases hp : activePred u2 t1 = true
    · have hu2 : u2 = u := by
        rcases activePred_eq_true.1 hp with ⟨h1, _⟩
        rw [← h1, hroute1]
      subst hu2
      have hnil : db.trips.filter (activePred u2) = [] := by
        rw [List.filter_eq_nil_iff]
        intro x hx
        have := List.find?_eq_none.1 hnone
        simpa using this x hx
      rw [hnil]
      simp [hp]
    · have heq : List.filter (activePred u2) [t1] = [] := by
        simp [hp]
      rw [heq, List.append_nil]
      exact hInv.activeLe u2
  · intro x hx
    rcases List.mem_append.1 hx with hx2 | hx2
    · exact hInv.distOk x hx2
    · have hx3 : x = t1 := by simpa using hx2
      subst hx3
      rw [ht1, calculateMetrics_distance, calculateMetrics_route]
  · intro x hx _
    rcases List.mem_append.1 hx with hx2 | hx2
    · exact hInv.activeZero x hx2 (by assumption)
    · have hx3 : x = t1 := by simpa using hx2
      subst hx3
      refine ⟨hend1, ?_, ?_⟩
      · rw [ht1, calculateMetrics_duration_of_none _ _ rfl]
        rfl
      · rw [ht1, calculateMetrics_averageSpeed_of_none _ _ rfl]
        rfl
  · intro x hx
    rcases List.mem_append.1 hx with hx2 | hx2
    · exact Nat.lt_succ_of_lt (hInv.tidLt x hx2)
    · have hx3 : x = t1 := by simpa using hx2
      subst hx3
      rw [htid1]
      exact Nat.lt_succ_self _
  · rw [List.map_append]
    rw [List.pairwise_append]
    refine ⟨hInv.tidNodup, by simp, ?_⟩
    intro a ha b hb
    simp only [List.map_cons, List.map_nil, List.mem_cons, List.not_mem_nil,
      or_false] at hb
    rcases List.mem_map.1 ha with ⟨x, hx, hxa⟩
    have := hInv.tidLt x hx
    rw [hb, htid1, ← hxa]
    omega

theorem inv_fields_only (hav : Point → Point → α) {db : DB α}
    (hInv : Inv hav db) (users' : List (UserData α)) :
    Inv hav { trips := db.trips, users := users', nextId := db.nextId } :=
  ⟨hInv.activeLe, hInv.distOk, hInv.activeZero, hInv.tidLt, hInv.tidNodup⟩

theorem inv_append_common (hav : Point → Point → α) {db : DB α}
    (hInv : Inv hav db) {t t2 : Trip α} (hmem : t ∈ db.trips)
    (hpred : activePred u t = true) {newRoute : List Point}
    (hsave : save hav { t with route := newRoute } = some t2)
    (users' : List (UserData α)) :
    Inv hav { trips := replaceTrip db.trips t2, users := users', nextId := db.nextId } := by
  obtain ⟨hval, ht2⟩ := save_eq_some hav _ t2 hsave
  have hstatus : t2.status = t.status := by
    rw [ht2, calculateMetrics_status]
  have hact : t.status = TripStatus.active := (activePred_eq_true.1 hpred).2
  obtain ⟨he, hd, ha⟩ := hInv.activeZero t hmem hact
  have hend : ({ t with route := newRoute } : Trip α).endTime = none := he
  refine inv_replace hav hInv hmem ?_ ?_ ?_ ?_ ?_ _
  · rw [ht2, calculateMetrics_tid]
  · rw [ht2, calculateMetrics_userId]
  · intro _
    exact hact
  · rw [ht2, calculateMetrics_distance, calculateMetrics_route]
  · intro _
    refine ⟨?_, ?_, ?_⟩
    · rw [ht2, calculateMetrics_endTime]
      exact hend
    · rw [ht2, calculateMetrics_duration_of_none _ _ hend]
      exact hd
    · rw [ht2, calculateMetrics_averageSpeed_of_none _ _ hend]
      exact ha

theorem inv_addRoutePoint (hav : Point → Point → α) {db : DB α}
    (hInv : Inv hav db) (u : Nat) (rq : FixReq) :
    Inv hav (addRoutePoint hav db u rq).2 := by
  unfold addRoutePoint
  by_cases h1 : (numFalsy rq.latitude || numFalsy rq.longitude ||
      numFalsy rq.accuracy || numFalsy rq.timestamp) = true
  · rw [if_pos h1]
    exact hInv
  rw [if_neg h1]
  rcases hfind : findActiveTrip db u with _ | t
  · simp only [hfind]
    exact hInv
  simp only [hfind]
  have hmem : t ∈ db.trips := List.mem_of_find?_eq_some hfind
  have hpred : activePred u t = true := List.find?_some hfind
  rcases hsave : save hav { t with route := t.route ++ [mkPoint rq] } with _ | t2
  · simp only [hsave]
    exact inv_fields_only hav hInv _
  simp only [hsave]
  exact inv_append_common hav hInv hmem hpred hsave _

theorem inv_addRoutePointsBulk (hav : Point → Point → α) {db : DB α}
    (hInv : Inv hav db) (u : Nat) (pts : List RawPoint) :
    Inv hav (addRoutePointsBulk hav db u pts).2 := by
  unfold addRoutePointsBulk
  by_cases h1 : pts.isEmpty = true
  · rw [if_pos h1]
    exact hInv
  rw [if_neg h1]
  rcases hfind : findActiveTrip db u with _ | t
  · simp only [hfind]
    exact hInv
  simp only [hfind]
  have hmem : t ∈ db.trips := List.mem_of_find?_eq_some hfind
  have hpred : activePred u t = true := List.find?_some hfind
  by_cases h2 : (sanitizePoints pts).isEmpty = true
  · rw [if_pos h2]
    exact inv_fields_only hav hInv _
  rw [if_neg h2]
  rcases hsave : save hav { t with route := t.route ++ sanitizePoints pts } with _ | t2
  · simp only [hsave]
    exact inv_fields_only hav hInv _
  simp only [hsave]
  exact inv_append_common hav hInv hmem hpred hsave _

theorem inv_endTrip (hav : Point → Point → α) {db : DB α}
    (hInv : Inv hav db) (u : Nat) (tid : Nat) (now : Int) (rq : EndReq α)
    (geo : Option String) : Inv hav (endTrip hav db u tid now rq geo).2 := by
  unfold endTrip
  rcases hfind : db.trips.find? (fun t =>
      decide (t.tid = tid) && decide (t.userId = u) &&
      decide (t.status = TripStatus.active)) with _ | t
  · simp only [hfind]
    exact hInv
  simp only [hfind]
  have hmem : t ∈ db.trips := List.mem_of_find?_eq_some hfind
  rcases hsave : save hav (endedTrip t now rq geo) with _ | t2
  · simp only [hsave]
    exact hInv
  simp only [hsave]
  obtain ⟨hval, ht2⟩ := save_eq_some hav _ t2 hsave
  have hstatus : t2.status = TripStatus.completed := by
    rw [ht2, calculateMetrics_status]
    rfl
  refine inv_replace hav hInv hmem ?_ ?_ ?_ ?_ ?_ _
  · rw [ht2, calculateMetrics_tid]
    rfl
  · rw [ht2, calculateMetrics_userId]
    rfl
  · intro h
    rw [hstatus] at h
    cases h
  · rw [ht2, calculateMetrics_distance, calculateMetrics_route]
  · intro h
    rw [hstatus] at h
    cases h

theorem inv_updateTrip (hav : Point → Point → α) {db : DB α}
    (hInv : Inv hav db) (u : Nat) (tid : Nat) (rq : UpdateReq) :
    Inv hav (updateTrip hav db u tid rq).2 := by
  unfold updateTrip
  rcases hfind : db.trips.find? (fun t =>
      decide (t.tid = tid) && decide (t.userId = u)) with _ | t
  · simp only [hfind]
    exact hInv
  simp only [hfind]
  have hmem : t ∈ db.trips := List.mem_of_find?_eq_some hfind
  by_cases hcomp : t.status = TripStatus.completed
  · rw [if_pos hcomp]
    exact hInv
  rw [if_neg hcomp]
  have hact : t.status = TripStatus.active := by
    cases h : t.status
    · rfl
    · exact absurd h hcomp
  rcases hsave : save hav (updatedTrip t rq) with _ | t2
  · simp only [hsave]
    exact hInv
  simp only [hsave]
  obtain ⟨hval, ht2⟩ := save_eq_some hav _ t2 hsave
  obtain ⟨he, hd, ha⟩ := hInv.activeZero t hmem hact
  have hend : (updatedTrip t rq).endTime = none := he
  refine inv_replace hav hInv hmem ?_ ?_ ?_ ?_ ?_ _
  · rw [ht2, calculateMetrics_tid]
    rfl
  · rw [ht2, calculateMetrics_userId]
    rfl
  · intro _
    exact hact
  · rw [ht2, calculateMetrics_distance, calculateMetrics_route]
  · intro _
    refine ⟨?_, ?_, ?_⟩
    · rw [ht2, calculateMetrics_endTime]
      exact hend
    · rw [ht2, calculateMetrics_duration_of_none _ _ hend]
      exact hd
    · rw [ht2, calculateMetrics_averageSpeed_of_none _ _ hend]
      exact ha

theorem inv_deleteTrip (hav : Point → Point → α) {db : DB α}
    (hInv : Inv hav db) (u : Nat) (tid : Nat) :
    Inv hav (deleteTrip db u tid).2 := by
  unfold deleteTrip
  rcases hfind : db.trips.find? (fun t =>
      decide (t.tid = tid) && decide (t.userId = u)) with _ | t
  · simp only [hfind]
    exact hInv
  simp only [hfind]
  have hsub : List.Sublist (db.trips.filter (fun x => decide (x.tid ≠ tid)))
      db.trips :=
    List.filter_sublist db.trips
  constructor
  · intro u2
    refine le_trans ?_ (hInv.activeLe u2)
    exact (hsub.filter (activePred u2)).length_le
  · intro x hx
    exact hInv.distOk x (hsub.mem hx)
  · intro x hx
    exact hInv.activeZero x (hsub.mem hx)
  · intro x hx
    exact hInv.tidLt x (hsub.mem hx)
  · exact hInv.tidNodup.sublist (hsub.map Trip.tid)

theorem inv_applyOp (hav : Point → Point → α) {db : DB α}
    (hInv : Inv hav db) (op : Op α) : Inv hav (applyOp hav db op).2 := by
  cases op with
  | create u now rq geo => exact inv_createTrip hav hInv now u rq geo
  | addPoint u rq => exact inv_addRoutePoint hav hInv u rq
  | addBulk u pts => exact inv_addRoutePointsBulk hav hInv u pts
  | finish u tid now rq geo => exact inv_endTrip hav hInv u tid now rq geo
  | change u tid rq => exact inv_updateTrip hav hInv u tid rq
  | remove u tid => exact inv_deleteTrip hav hInv u tid

theorem inv_db0 (hav : Point → Point → α) : Inv hav (db0 (α := α)) := by
  constructor
  · intro u
    simp [db0]
  · intro t ht
    simp [db0] at ht
  · intro t ht
    simp [db0] at ht
  · intro t ht
    simp [db0] at ht
  · simp [db0]

theorem reachable_inv (hav : Point → Point → α) {db : DB α}
    (h : Reachable hav db) : Inv hav db := by
  induction h with
  | init => exact inv_db0 hav
  | step db op _ ih => exact inv_applyOp hav ih op

/-! ## Claim theorems -/

/-- Claim C1: for every successful `End(userId, tripId)` of an active trip
in a reachable store, the stored trip's `endOdometer` equals
`startOdometer + roundDistance(final computed distance)`, and the result
is identical whatever `endOdometer` value the client sends. -/
theorem endTrip_endOdometer_authoritative {α : Type} [LinearOrderedField α]
    [FloorRing α] (hav : Point → Point → α) (hnn : ∀ p q, 0 ≤ hav p q)
    {db : DB α} (hdb : Reachable hav db) (u tid : Nat) (now : Int)
    (rq : EndReq α) (geo : Option String) {t2 : Trip α} {db' : DB α}
    (h : endTrip hav db u tid now rq geo = (Except.ok t2, db')) :
    t2.endOdometer = some (t2.startOdometer + (roundDistance t2.distance : α)) ∧
    t2.status = TripStatus.completed ∧ t2 ∈ db'.trips ∧
    (∀ x : Option α, endTrip hav db u tid now rq geo =
        endTrip hav db u tid now { rq with endOdometer := x } geo) := by
  have hInv := reachable_inv hav hdb
  have hindep : ∀ x : Option α, endTrip hav db u tid now rq geo =
      endTrip hav db u tid now { rq with endOdometer := x } geo := by
    intro x
    cases rq
    rfl
  unfold endTrip at h
  rcases hfind : db.trips.find? (fun t =>
      decide (t.tid = tid) && decide (t.userId = u) &&
      decide (t.status = TripStatus.active)) with _ | t
  · rw [hfind] at h
    cases h
  rw [hfind] at h
  have hmem : t ∈ db.trips := List.mem_of_find?_eq_some hfind
  rcases hsave : save hav (endedTrip t now rq geo) with _ | t2'
  · simp only [hsave] at h
    cases h
  simp only [hsave] at h
  rw [Prod.mk.injEq] at h
  obtain ⟨h1, h2⟩ := h
  have ht2' : t2' = t2 := by
    simpa using h1
  subst ht2'
  subst h2
  obtain ⟨hval, ht2⟩ := save_eq_some hav _ t2' hsave
  have hdist_t : t.distance = computeDistance hav t.route := hInv.distOk t hmem
  have hdist_nn : (0:α) ≤ t.distance := by
    rw [hdist_t]
    exact computeDistance_nonneg hav hnn t.route
  have hrd_nn : (0:ℤ) ≤ roundDistance t.distance :=
    roundDistance_nonneg t.distance hdist_nn
  have hmax : max (t.startOdometer + (roundDistance t.distance : α))
      t.startOdometer = t.startOdometer + (roundDistance t.distance : α) :=
    max_eq_left (le_add_of_nonneg_right (by exact_mod_cast hrd_nn))
  have hdist2 : t2'.distance = t.distance := by
    rw [ht2, calculateMetrics_distance]
    show computeDistance hav (endedTrip t now rq geo).route = t.distance
    rw [hdist_t]
    rfl
  have hstart2 : t2'.startOdometer = t.startOdometer := by
    rw [ht2, calculateMetrics_startOdometer]
    rfl
  have hodo2 : t2'.endOdometer =
      some (max (t.startOdometer + (roundDistance t.distance : α))
        t.startOdometer) := by
    rw [ht2, calculateMetrics_endOdometer]
    rfl
  refine ⟨?_, ?_, ?_, hindep⟩
  · rw [hodo2, hmax, hdist2, hstart2]
  · rw [ht2, calculateMetrics_status]
    rfl
  · show t2' ∈ replaceTrip db.trips t2'
    have htid2 : t.tid = t2'.tid := by
      rw [ht2, calculateMetrics_tid]
      rfl
    unfold replaceTrip
    refine List.mem_map.2 ⟨t, hmem, ?_⟩
    rw [if_pos htid2]

unseal Rat.add Rat.sub Rat.mul Rat.inv in
theorem endTrip_endOdometer_authoritative_witness :
    endTrip hav1 dbOne 7 0 1000 { endOdometer := some 9999, endLocation := none }
        (some "Shelbyville") = (Except.ok tripOneEnded, dbOneEnded) ∧
    tripOneEnded.endOdometer =
      some (tripOneEnded.startOdometer + (roundDistance tripOneEnded.distance : ℚ)) :=
  ⟨by decide,
   (@endTrip_endOdometer_authoritative ℚ _ _ hav1 (fun p q => abs_nonneg _)
      dbOne
      (Reachable.step db0 (Op.create 7 0 rqStart (some "Springfield")) Reachable.init)
      7 0 1000 { endOdometer := some 9999, endLocation := none }
      (some "Shelbyville") tripOneEnded dbOneEnded (by decide)).1⟩

/-- Claim C2 (amended): in every reachable store each user has at most one
active trip; `Start` fails with the conflict error whenever the user
already has an active trip and the request passes the handler's falsiness
check (with a falsy field the `InvalidInput` check fires first); and when
there is no active trip and the request passes both the falsiness check
and schema validation, `Start` creates the trip in active status. -/
theorem single_active_trip_invariant {α : Type} [LinearOrderedField α]
    [FloorRing α] (hav : Point → Point → α) :
    (∀ db : DB α, Reachable hav db → ∀ u,
        (db.trips.filter (activePred u)).length ≤ 1) ∧
    (∀ (db : DB α) (now : Int) (u : Nat) (rq : CreateReq α)
        (geo : Option String),
        (strFalsy rq.purpose || numFalsy rq.startOdometer) = false →
        (findActiveTrip db u).isSome = true →
        (createTrip hav db now u rq geo).1 = Except.error ErrKind.conflict) ∧
    (∀ (db : DB α) (now : Int) (u : Nat) (rq : CreateReq α)
        (geo : Option String),
        findActiveTrip db u = none →
        (strFalsy rq.purpose || numFalsy rq.startOdometer) = false →
        tripValid (initialTrip db.nextId u now rq geo) = true →
        (createTrip hav db now u rq geo).1 =
          Except.ok (calculateMetrics hav (initialTrip db.nextId u now rq geo)) ∧
        (calculateMetrics hav (initialTrip db.nextId u now rq geo)).status =
          TripStatus.active) := by
  refine ⟨?_, ?_, ?_⟩
  · intro db h u
    exact (reachable_inv hav h).activeLe u
  · intro db now u rq geo hfal hact
    simp [createTrip, hfal, hact]
  · intro db now u rq geo hnone hfal hval
    constructor
    · simp [createTrip, hfal, hnone, save, hval]
    · rw [calculateMetrics_status]
      rfl

/-- Claim C2 counterexample: with an active trip present and a falsy
purpose, `Start` fails with `InvalidInput` rather than the conflict
error, so "fails with Conflict whenever the user already has an Active
trip" is false as stated. -/
theorem single_active_trip_counterexample :
    (findActiveTrip dbSeven 7).isSome = true ∧
    (createTrip hav0 dbSeven 0 7
        { purpose := none, startOdometer := some 5, route := none } none).1 =
      Except.error ErrKind.invalidInput ∧
    (createTrip hav0 dbSeven 0 7
        { purpose := none, startOdometer := some 5, route := none } none).1 ≠
      Except.error ErrKind.conflict := by
  refine ⟨by decide, by decide, by decide⟩

unseal Rat.add Rat.sub Rat.mul Rat.inv in
theorem single_active_trip_witness :
    ((dbOne.trips.filter (activePred 7)).length ≤ 1) ∧
    ((createTrip hav1 dbOne 0 7 rqStart none).1 = Except.error ErrKind.conflict) ∧
    ((createTrip hav1 db0 0 7 rqStart (some "Springfield")).1 =
      Except.ok (calculateMetrics hav1
        (initialTrip (db0 (α := ℚ)).nextId 7 0 rqStart (some "Springfield")))) :=
  ⟨(single_active_trip_invariant hav1).1 dbOne
      (Reachable.step db0 (Op.create 7 0 rqStart (some "Springfield"))
        Reachable.init) 7,
   (single_active_trip_invariant hav1).2.1 dbOne 0 7 rqStart none (by decide)
     (by decide),
   ((single_active_trip_invariant hav1).2.2 db0 0 7 rqStart (some "Springfield")
     rfl (by decide) (by decide)).1⟩

/-- Claim C3: the odometer rounding rule is round-half-down: the floor,
plus one exactly when the fractional part strictly exceeds one half —
equivalently the ceiling of `d - 1/2` — with the documented example
values. -/
theorem roundDistance_half_down :
    (∀ (α : Type) [LinearOrderedField α] [FloorRing α] (d : α),
        0 ≤ d →
        (1/2 < d - (⌊d⌋ : α) → roundDistance d = ⌊d⌋ + 1) ∧
        (d - (⌊d⌋ : α) ≤ 1/2 → roundDistance d = ⌊d⌋) ∧
        roundDistance d = ⌈d - 1/2⌉) ∧
    roundDistance ((5:ℚ)/2) = 2 ∧
    roundDistance ((251:ℚ)/100) = 3 ∧
    roundDistance ((2:ℚ)) = 2 ∧
    roundDistance ((49:ℚ)/100) = 0 := by
  have hgen : ∀ (α : Type) [LinearOrderedField α] [FloorRing α] (d : α),
      0 ≤ d →
      (1/2 < d - (⌊d⌋ : α) → roundDistance d = ⌊d⌋ + 1) ∧
      (d - (⌊d⌋ : α) ≤ 1/2 → roundDistance d = ⌊d⌋) ∧
      roundDistance d = ⌈d - 1/2⌉ := by
    intro α _ _ d _
    refine ⟨?_, ?_, roundDistance_eq_ceil d⟩
    · intro h
      unfold roundDistance
      rw [if_pos h]
    · intro h
      unfold roundDistance
      rw [if_neg (not_lt.2 h), add_zero]
  refine ⟨hgen, ?_, ?_, ?_, ?_⟩
  · have := (hgen ℚ ((5:ℚ)/2) (by norm_num)).2.2
    rw [this]
    norm_num [Int.ceil_eq_iff]
  · have := (hgen ℚ ((251:ℚ)/100) (by norm_num)).2.2
    rw [this]
    norm_num [Int.ceil_eq_iff]
  · have := (hgen ℚ ((2:ℚ)) (by norm_num)).2.2
    rw [this]
    norm_num [Int.ceil_eq_iff]
  · have := (hgen ℚ ((49:ℚ)/100) (by norm_num)).2.2
    rw [this]
    rw [show ((49:ℚ)/100 - 1/2) = -(1/100) by norm_num]
    norm_num [Int.ceil_eq_iff]

unseal Rat.add Rat.sub Rat.mul Rat.inv in
theorem roundDistance_half_down_witness :
    (0:ℚ) ≤ 5/2 ∧ ((5:ℚ)/2 - (⌊(5:ℚ)/2⌋ : ℚ) ≤ 1/2) ∧
    roundDistance ((5:ℚ)/2) = ⌊(5:ℚ)/2⌋ :=
  ⟨by decide, by decide,
   (roundDistance_half_down.1 ℚ ((5:ℚ)/2) (by decide)).2.1 (by decide)⟩

/-- Claim C4: the metrics computation yields distance 0 for routes with
fewer than two fixes and otherwise the sum of consecutive-pair haversine
distances (Earth radius 6371 km); with an end time present the duration
is `max 0 (floor of the elapsed seconds))` and the average speed is
`distance / duration * 3.6` for positive duration and `0` otherwise; and
in every reachable store an active trip has duration 0 and average speed
0. -/
theorem calculateMetrics_spec :
    (∀ route : List Point, route.length < 2 →
        computeDistance calculateHaversineDistance route = 0) ∧
    (∀ route : List Point,
        computeDistance calculateHaversineDistance route =
          ((route.zip route.tail).map
            (fun pq => calculateHaversineDistance pq.1 pq.2)).sum) ∧
    (∀ (t : Trip ℝ) (e : Int), t.endTime = some e →
        (calculateMetrics calculateHaversineDistance t).duration =
          max 0 ⌊((e - t.startTime : ℤ) : ℝ) / 1000⌋ ∧
        (0 < (calculateMetrics calculateHaversineDistance t).duration →
          (calculateMetrics calculateHaversineDistance t).averageSpeed =
            (calculateMetrics calculateHaversineDistance t).distance /
              ((calculateMetrics calculateHaversineDistance t).duration : ℝ) *
              (36/10)) ∧
        ((calculateMetrics calculateHaversineDistance t).duration = 0 →
          (calculateMetrics calculateHaversineDistance t).averageSpeed = 0)) ∧
    (∀ (α : Type) [LinearOrderedField α] [FloorRing α]
        (hav : Point → Point → α) (db : DB α), Reachable hav db →
        ∀ t ∈ db.trips, t.status = TripStatus.active →
          t.duration = 0 ∧ t.averageSpeed = 0) := by
  refine ⟨?_, ?_, ?_, ?_⟩
  · intro route h
    unfold computeDistance
    rw [if_neg (by omega)]
  · intro route
    rw [computeDistance_eq_pairSum, pairSum_eq_zip_sum]
  · intro t e h
    refine ⟨calculateMetrics_duration_of_some _ t e h, ?_, ?_⟩
    · intro hpos
      rw [calculateMetrics_duration_of_some _ t e h] at hpos
      rw [calculateMetrics_averageSpeed_of_some _ t e h,
        calculateMetrics_distance, calculateMetrics_duration_of_some _ t e h,
        if_pos hpos]
    · intro hz
      rw [calculateMetrics_duration_of_some _ t e h] at hz
      rw [calculateMetrics_averageSpeed_of_some _ t e h, if_neg (by omega)]
  · intro α _ _ hav db h t ht hact
    exact ⟨((reachable_inv hav h).activeZero t ht hact).2.1,
      ((reachable_inv hav h).activeZero t ht hact).2.2⟩

unseal Rat.add Rat.sub Rat.mul Rat.inv in
theorem calculateMetrics_spec_witness :
    ([] : List Point).length < 2 ∧
    computeDistance calculateHaversineDistance ([] : List Point) = 0 ∧
    c4Trip.endTime = some 5000 ∧
    (calculateMetrics calculateHaversineDistance c4Trip).duration =
      max 0 ⌊((5000 - c4Trip.startTime : ℤ) : ℝ) / 1000⌋ ∧
    tripOne ∈ dbOne.trips ∧ tripOne.status = TripStatus.active ∧
    tripOne.duration = 0 ∧ tripOne.averageSpeed = 0 :=
  ⟨by decide,
   calculateMetrics_spec.1 [] (by decide),
   rfl,
   (calculateMetrics_spec.2.2.1 c4Trip 5000 rfl).1,
   by decide,
   rfl,
   (calculateMetrics_spec.2.2.2 ℚ hav1 dbOne
      (Reachable.step db0 (Op.create 7 0 rqStart (some "Springfield"))
        Reachable.init) tripOne (by decide) rfl).1,
   (calculateMetrics_spec.2.2.2 ℚ hav1 dbOne
      (Reachable.step db0 (Op.create 7 0 rqStart (some "Springfield"))
        Reachable.init) tripOne (by decide) rfl).2⟩

/-- Claim C5: after every lifecycle mutation the stored `distance` field
of every trip equals the metrics computation applied to its current
route — derived distances are never stale. -/
theorem distance_never_stale {α : Type} [LinearOrderedField α] [FloorRing α]
    (hav : Point → Point → α) {db : DB α} (h : Reachable hav db) :
    ∀ t ∈ db.trips, t.distance = computeDistance hav t.route :=
  (reachable_inv hav h).distOk

unseal Rat.add Rat.sub Rat.mul Rat.inv in
theorem distance_never_stale_witness :
    tripOne ∈ dbOne.trips ∧
    tripOne.distance = computeDistance hav1 tripOne.route :=
  ⟨by decide,
   distance_never_stale hav1
     (Reachable.step db0 (Op.create 7 0 rqStart (some "Springfield"))
       Reachable.init) tripOne (by decide)⟩

/-- Claim C6 (amended): `Start` fails with the handler's `InvalidInput`
exactly when `purpose` is missing or empty or `startOdometer` is missing
or zero (the JavaScript falsiness check); a negative `startOdometer` with
an otherwise acceptable request instead fails as a server error during
schema validation.  In particular `startOdometer = 0` with a valid
purpose fails with `InvalidInput`. -/
theorem start_invalid_input_iff {α : Type} [LinearOrderedField α]
    [FloorRing α] (hav : Point → Point → α) (db : DB α) (now : Int) (u : Nat)
    (rq : CreateReq α) (geo : Option String) :
    ((createTrip hav db now u rq geo).1 = Except.error ErrKind.invalidInput ↔
      strFalsy rq.purpose = true ∨ numFalsy rq.startOdometer = true) ∧
    (∀ v : α, rq.startOdometer = some v → v < 0 →
        findActiveTrip db u = none →
        (createTrip hav db now u rq geo).1 ≠ Except.error ErrKind.invalidInput →
        (createTrip hav db now u rq geo).1 = Except.error ErrKind.serverError) := by
  constructor
  · constructor
    · intro h
      by_cases hfal : (strFalsy rq.purpose || numFalsy rq.startOdometer) = true
      · exact Bool.or_eq_true_iff.1 hfal
      · exfalso
        rw [Bool.not_eq_true] at hfal
        by_cases hact : (findActiveTrip db u).isSome = true
        · simp [createTrip, hfal, hact] at h
        · rw [Bool.not_eq_true] at hact
          rcases hsave : save hav (initialTrip db.nextId u now rq geo) with _ | t1
          · simp [createTrip, hfal, hact, hsave] at h
          · simp [createTrip, hfal, hact, hsave] at h
    · intro h
      have hfal : (strFalsy rq.purpose || numFalsy rq.startOdometer) = true := by
        rcases h with h | h <;> simp [h]
      simp [createTrip, hfal]
  · intro v hv hneg hnone hnotinv
    have hfal : (strFalsy rq.purpose || numFalsy rq.startOdometer) = false := by
      by_cases hh : (strFalsy rq.purpose || numFalsy rq.startOdometer) = true
      · exfalso
        exact hnotinv (by simp [createTrip, hh])
      · simpa using hh
    have hact : (findActiveTrip db u).isSome = false := by
      rw [hnone]
      rfl
    have hso : (initialTrip db.nextId u now rq geo).startOdometer = v := by
      simp [initialTrip, hv]
    have hval : tripValid (initialTrip db.nextId u now rq geo) = false := by
      unfold tripValid
      rw [hso]
      simp [hneg.not_le]
    simp [createTrip, hfal, hact, save, hval]

unseal Rat.add Rat.sub Rat.mul Rat.inv in
theorem start_invalid_input_counterexample :
    strFalsy rqZero.purpose = false ∧
    tripValid (initialTrip 0 7 0 rqZero none) = true ∧
    (createTrip hav0 db0 0 7 rqZero none).1 = Except.error ErrKind.invalidInput := by
  refine ⟨by decide, by decide, by decide⟩

unseal Rat.add Rat.sub Rat.mul Rat.inv in
theorem start_invalid_input_iff_witness :
    ((createTrip hav0 db0 0 7 rqNeg none).1 = Except.error ErrKind.invalidInput ↔
      strFalsy rqNeg.purpose = true ∨ numFalsy rqNeg.startOdometer = true) ∧
    rqNeg.startOdometer = some (-5) ∧ ((-5:ℚ) < 0) ∧
    (createTrip hav0 db0 0 7 rqNeg none).1 = Except.error ErrKind.serverError :=
  ⟨(start_invalid_input_iff hav0 db0 0 7 rqNeg none).1,
   rfl, by decide,
   (start_invalid_input_iff hav0 db0 0 7 rqNeg none).2 (-5) rfl (by decide) rfl
     (by decide)⟩

/-- Claim C7 (amended): the single-fix append rejects with `InvalidInput`
any fix with a missing or zero field (JavaScript falsiness), even one
that is schema-valid such as latitude 0; a bulk append keeps exactly the
entries whose four fields are numbers (zero allowed) and appends them in
submission order on success, and it fails with `InvalidInput` exactly
when the batch is empty or, with an active trip present, when no entry
survives sanitising. -/
theorem appendFix_validation {α : Type} [LinearOrderedField α] [FloorRing α]
    (hav : Point → Point → α) (db : DB α) (u : Nat) :
    (∀ rq : FixReq, (numFalsy rq.latitude || numFalsy rq.longitude ||
        numFalsy rq.accuracy || numFalsy rq.timestamp) = true →
        (addRoutePoint hav db u rq).1 = Except.error ErrKind.invalidInput) ∧
    (∀ (rq : FixReq) (t t2 : Trip α), findActiveTrip db u = some t →
        (addRoutePoint hav db u rq).1 = Except.ok t2 →
        t2.route = t.route ++ [mkPoint rq]) ∧
    (∀ (pts : List RawPoint) (t t2 : Trip α), findActiveTrip db u = some t →
        (addRoutePointsBulk hav db u pts).1 = Except.ok t2 →
        t2.route = t.route ++ sanitizePoints pts) ∧
    (∀ pts : List RawPoint,
        ((addRoutePointsBulk hav db u pts).1 = Except.error ErrKind.invalidInput ↔
          pts = [] ∨
            ((findActiveTrip db u).isSome = true ∧ sanitizePoints pts = []))) := by
  refine ⟨?_, ?_, ?_, ?_⟩
  · intro rq h
    simp [addRoutePoint, h]
  · intro rq t t2 hfind hok
    unfold addRoutePoint at hok
    by_cases hfal : (numFalsy rq.latitude || numFalsy rq.longitude ||
        numFalsy rq.accuracy || numFalsy rq.timestamp) = true
    · rw [if_pos hfal] at hok
      cases hok
    rw [if_neg hfal] at hok
    simp only [hfind] at hok
    rcases hsave : save hav { t with route := t.route ++ [mkPoint rq] } with _ | t2'
    · simp only [hsave] at hok
      cases hok
    · simp only [hsave] at hok
      have ht : t2' = t2 := by simpa using hok
      subst ht
      obtain ⟨_, h2⟩ := save_eq_some hav _ _ hsave
      rw [h2, calculateMetrics_route]
  · intro pts t t2 hfind hok
    unfold addRoutePointsBulk at hok
    by_cases hemp : pts.isEmpty = true
    · rw [if_pos hemp] at hok
      cases hok
    rw [if_neg hemp] at hok
    simp only [hfind] at hok
    by_cases hsan : (sanitizePoints pts).isEmpty = true
    · rw [if_pos hsan] at hok
      cases hok
    rw [if_neg hsan] at hok
    rcases hsave : save hav { t with route := t.route ++ sanitizePoints pts }
      with _ | t2'
    · simp only [hsave] at hok
      cases hok
    · simp only [hsave] at hok
      have ht : t2' = t2 := by simpa using hok
      subst ht
      obtain ⟨_, h2⟩ := save_eq_some hav _ _ hsave
      rw [h2, calculateMetrics_route]
  · intro pts
    by_cases hemp : pts.isEmpty = true
    · simp only [addRoutePointsBulk, if_pos hemp]
      constructor
      · intro _
        exact Or.inl (List.isEmpty_iff.1 hemp)
      · intro _
        trivial
    · rcases hfind : findActiveTrip db u with _ | t
      · simp only [addRoutePointsBulk, if_neg hemp, hfind]
        constructor
        · intro h
          simp at h
        · rintro (h | ⟨hs, _⟩)
          · rw [h] at hemp
            simp at hemp
          · simp at hs
      · simp only [addRoutePointsBulk, if_neg hemp, hfind]
        by_cases hsan : (sanitizePoints pts).isEmpty = true
        · simp only [if_pos hsan]
          constructor
          · intro _
            exact Or.inr ⟨rfl, List.isEmpty_iff.1 hsan⟩
          · intro _
            trivial
        · simp only [if_neg hsan]
          rcases hsave : save hav { t with route := t.route ++ sanitizePoints pts }
            with _ | t2
          · simp only [hsave]
            constructor
            · intro h
              simp at h
            · rintro (h | ⟨_, hs⟩)
              · rw [h] at hemp
                simp at hemp
              · rw [hs] at hsan
                simp at hsan
          · simp only [hsave]
            constructor
            · intro h
              cases h
            · rintro (h | ⟨_, hs⟩)
              · rw [h] at hemp
                simp at hemp
              · rw [hs] at hsan
                simp at hsan

unseal Rat.add Rat.sub Rat.mul Rat.inv in
theorem appendFix_validation_counterexample :
    (findActiveTrip dbSeven 7).isSome = true ∧
    validPoint ⟨0, 10, 5, 1000⟩ = true ∧
    (addRoutePoint hav0 dbSeven 7 ⟨some 0, some 10, some 5, some 1000⟩).1 =
      Except.error ErrKind.invalidInput := by
  refine ⟨by decide, by decide, by decide⟩

unseal Rat.add Rat.sub Rat.mul Rat.inv in
theorem appendFix_validation_witness :
    ((addRoutePoint hav0 dbSeven 7
        ⟨some 0, some 10, some 5, some 1000⟩).1 =
      Except.error ErrKind.invalidInput) ∧
    findActiveTrip dbSeven 7 = some tripSeven ∧
    ((addRoutePointsBulk hav0 dbSeven 7
        [⟨some 0, some 0, some 0, some 1⟩]).1 = Except.ok tripSevenZeroFix) ∧
    tripSevenZeroFix.route = tripSeven.route ++
      sanitizePoints [⟨some 0, some 0, some 0, some 1⟩] ∧
    ((addRoutePointsBulk hav0 dbSeven 7 ([] : List RawPoint)).1 =
        Except.error ErrKind.invalidInput ↔
      ([] : List RawPoint) = [] ∨
        ((findActiveTrip dbSeven 7).isSome = true ∧
          sanitizePoints ([] : List RawPoint) = [])) :=
  ⟨(appendFix_validation hav0 dbSeven 7).1
      ⟨some 0, some 10, some 5, some 1000⟩ (by decide),
   by decide,
   by decide,
   (appendFix_validation hav0 dbSeven 7).2.2.1
     [⟨some 0, some 0, some 0, some 1⟩] tripSeven tripSevenZeroFix
     (by decide) (by decide),
   (appendFix_validation hav0 dbSeven 7).2.2.2 ([] : List RawPoint)⟩

theorem find?_userId_map (users : List (UserData α)) (u : Nat)
    (f : UserData α → UserData α) (hf : ∀ r, (f r).userId = r.userId) :
    (users.map f).find? (fun r => decide (r.userId = u)) =
      (users.find? (fun r => decide (r.userId = u))).map f := by
  rw [List.find?_map]
  have hcomp : ((fun r => decide (r.userId = u)) ∘ f) =
      (fun r : UserData α => decide (r.userId = u)) := by
    funext r
    simp [Function.comp, hf]
  rw [hcomp]

theorem find?_append_of_none {l1 l2 : List (UserData α)}
    {p : UserData α → Bool} (h : l1.find? p = none) :
    (l1 ++ l2).find? p = l2.find? p := by
  induction l1 with
  | nil => rfl
  | cons a l ih =>
      cases hpa : p a with
      | true =>
          rw [List.find?_cons_of_pos _ hpa] at h
          cases h
      | false =>
          rw [List.find?_cons_of_neg _ (by simp [hpa])] at h
          rw [List.cons_append, List.find?_cons_of_neg _ (by simp [hpa])]
          exact ih h

/-- Claim C8: after every successful `Start`, the user's ledger record has
`activeTrip` set to the new trip's id and `currentOdometer` equal to the
maximum of its previous value (0 for a fresh record) and the requested
`startOdometer` — the floor is raised, never lowered. -/
theorem start_raises_odometer_floor {α : Type} [LinearOrderedField α]
    [FloorRing α] (hav : Point → Point → α) (db : DB α) (now : Int) (u : Nat)
    (rq : CreateReq α) (geo : Option String) (t1 : Trip α) (db' : DB α)
    (h : createTrip hav db now u rq geo = (Except.ok t1, db')) :
    (db'.users.find? (fun r => decide (r.userId = u))).map
        (fun r => (r.activeTrip, r.currentOdometer)) =
      some (some t1.tid,
        max (((db.users.find? (fun r => decide (r.userId = u))).map
            (fun r => r.currentOdometer)).getD 0) (rq.startOdometer.getD 0)) := by
  unfold createTrip at h
  by_cases hfal : (strFalsy rq.purpose || numFalsy rq.startOdometer) = true
  · rw [if_pos hfal] at h
    cases h
  rw [if_neg hfal] at h
  by_cases hact : (findActiveTrip db u).isSome = true
  · rw [if_pos hact] at h
    cases h
  rw [if_neg hact] at h
  rcases hsave : save hav (initialTrip db.nextId u now rq geo) with _ | t1'
  · simp only [hsave] at h
    cases h
  simp only [hsave] at h
  rw [Prod.mk.injEq] at h
  obtain ⟨h1, h2⟩ := h
  have ht1 : t1' = t1 := by simpa using h1
  subst ht1
  subst h2
  by_cases hany : db.users.any (fun r => decide (r.userId = u)) = true
  · simp only [if_pos hany]
    rw [find?_userId_map db.users u _ (fun r => by
      by_cases hr : r.userId = u <;> simp [hr])]
    have hsome : (db.users.find? (fun r => decide (r.userId = u))).isSome = true := by
      rw [List.find?_isSome]
      simpa using List.any_eq_true.1 hany
    obtain ⟨r0, hr0⟩ := Option.isSome_iff_exists.1 hsome
    have hp0 : r0.userId = u := by simpa using List.find?_some hr0
    rw [hr0]
    simp [hp0]
  · simp only [if_neg hany]
    have hnone : db.users.find? (fun r => decide (r.userId = u)) = none := by
      rw [List.find?_eq_none]
      intro x hx hpx
      exact hany (List.any_eq_true.2 ⟨x, hx, hpx⟩)
    rw [find?_append_of_none hnone, hnone]
    simp

unseal Rat.add Rat.sub Rat.mul Rat.inv in
theorem start_raises_odometer_floor_witness :
    createTrip hav0 dbLedger 0 7 rqHundred none =
      (Except.ok tripHundred, dbLedgerAfter) ∧
    (dbLedgerAfter.users.find? (fun r => decide (r.userId = 7))).map
        (fun r => (r.activeTrip, r.currentOdometer)) =
      some (some tripHundred.tid,
        max (((dbLedger.users.find? (fun r => decide (r.userId = 7))).map
            (fun r => r.currentOdometer)).getD 0)
          (rqHundred.startOdometer.getD 0)) :=
  ⟨by decide,
   start_raises_odometer_floor hav0 dbLedger 0 7 rqHundred none tripHundred
     dbLedgerAfter (by decide)⟩

theorem orNull_ne_empty {o : Option String} {n : String}
    (h : orNull o = some n) : n ≠ "" := by
  cases o with
  | none => cases h
  | some s =>
      by_cases hs : s = ""
      · simp [orNull, hs] at h
      · simp only [orNull, if_neg hs] at h
        have hsn : s = n := by simpa using h
        rw [← hsn]
        exact hs

theorem firstTruthy_ne_empty :
    ∀ {l : List (Option String)} {n : String}, firstTruthy l = some n → n ≠ "" := by
  intro l
  induction l with
  | nil =>
      intro n h
      cases h
  | cons o rest ih =>
      intro n h
      unfold firstTruthy at h
      cases ho : orNull o with
      | some s =>
          rw [ho] at h
          have hsn : s = n := by simpa using h
          rw [← hsn]
          exact orNull_ne_empty ho
      | none =>
          rw [ho] at h
          exact ih h

theorem extractName_ne_empty {j : Option NominatimJson} {n : String}
    (h : extractName j = some n) : n ≠ "" := by
  cases j with
  | none => cases h
  | some jj =>
      simp only [extractName] at h
      cases ha : jj.address with
      | none =>
          simp only [ha] at h
          exact orNull_ne_empty h
      | some a =>
          simp only [ha] at h
          cases hf : firstTruthy
              [a.suburb, a.neighbourhood, a.quarter, a.hamlet, a.village,
               a.town, a.city, a.municipality, a.state_district, a.state,
               a.country] with
          | some s =>
              simp only [hf] at h
              have hsn : s = n := by simpa using h
              rw [← hsn]
              exact firstTruthy_ne_empty hf
          | none =>
              simp only [hf] at h
              exact orNull_ne_empty h

theorem reverseGeocode_queried_some {c : Cache} {now : Int} {la lo : ℚ}
    {up : Option NominatimJson} {n : String} {c1 : Cache}
    (h : reverseGeocode c now (some la) (some lo) up = (some n, c1, true)) :
    extractName up = some n ∧ c1 = setCache c now la lo n := by
  unfold reverseGeocode at h
  have hfetch : ∀ hh : (match extractName up with
      | some m =>
          if m = "" then ((none : Option String), c, true)
          else (some m, setCache c now la lo m, true)
      | none => (none, c, true)) = (some n, c1, true),
      extractName up = some n ∧ c1 = setCache c now la lo n := by
    intro hh
    cases he : extractName up with
    | some m =>
        simp only [he] at hh
        by_cases hm : m = ""
        · rw [if_pos hm] at hh
          rw [Prod.mk.injEq] at hh
          cases hh.1
        · rw [if_neg hm] at hh
          rw [Prod.mk.injEq, Prod.mk.injEq] at hh
          have hmn : m = n := by simpa using hh.1
          subst hmn
          exact ⟨rfl, hh.2.1.symm⟩
    | none =>
        simp only [he] at hh
        rw [Prod.mk.injEq] at hh
        cases hh.1
  cases hg : getCached c now la lo with
  | some m =>
      simp only [hg] at h
      by_cases hm : m = ""
      · rw [if_pos hm] at h
        exact hfetch h
      · rw [if_neg hm] at h
        rw [Prod.mk.injEq, Prod.mk.injEq] at h
        cases h.2.2
  | none =>
      simp only [hg] at h
      exact hfetch h

/-- Claim C9 (amended): after a lookup that queried the upstream service
and cached a name, a second lookup for coordinates with the same
`toFixed(5)` cache key within the six-hour TTL returns the cached name
without querying upstream, and once the TTL has elapsed a lookup for that
key queries the upstream service again. -/
theorem geocode_cache_hit_same_key (c : Cache) (t1 t2 : Int)
    (la1 lo1 la2 lo2 : ℚ) (up1 up2 : Option NominatimJson) (n : String)
    (c1 : Cache)
    (h1 : reverseGeocode c t1 (some la1) (some lo1) up1 = (some n, c1, true))
    (hkey : cacheKey la2 lo2 = cacheKey la1 lo1)
    (httl : t2 - t1 < CACHE_TTL_MS) :
    reverseGeocode c1 t2 (some la2) (some lo2) up2 = (some n, c1, false) ∧
    (∀ (t3 : Int) (up3 : Option NominatimJson), CACHE_TTL_MS ≤ t3 - t1 →
        (reverseGeocode c1 t3 (some la2) (some lo2) up3).2.2 = true) := by
  obtain ⟨hname, hc1⟩ := reverseGeocode_queried_some h1
  have hne : n ≠ "" := extractName_ne_empty hname
  subst hc1
  have hhead : ∀ t : Int,
      (setCache c t1 la1 lo1 n).find?
        (fun e => decide (e.1 = cacheKey la2 lo2)) =
      some (cacheKey la1 lo1, { name := n, timestamp := t1 }) := by
    intro t
    unfold setCache
    rw [List.find?_cons_of_pos _ (by simp [hkey])]
  constructor
  · have hget2 : getCached (setCache c t1 la1 lo1 n) t2 la2 lo2 = some n := by
      unfold getCached
      simp only [hhead t2]
      rw [if_pos httl]
    unfold reverseGeocode
    simp only [hget2, if_neg hne]
  · intro t3 up3 httl3
    have hget3 : getCached (setCache c t1 la1 lo1 n) t3 la2 lo2 = none := by
      unfold getCached
      simp only [hhead t3]
      rw [if_neg (by omega)]
    unfold reverseGeocode
    simp only [hget3]
    cases he : extractName up3 with
    | some m => by_cases hm : m = "" <;> simp [he, hm]
    | none => simp [he]

unseal Rat.add Rat.sub Rat.mul Rat.inv in
theorem geocode_cache_hit_counterexample :
    |(1000006/1000000 : ℚ) - 1000004/1000000| < 1/100000 ∧
    (reverseGeocode [] 0 (some (1000004/1000000)) (some 0)
        (some { address := none, display_name := some "X" })).1 = some "X" ∧
    ((1:Int) - 0 < CACHE_TTL_MS) ∧
    (reverseGeocode
        ((reverseGeocode [] 0 (some (1000004/1000000)) (some 0)
            (some { address := none, display_name := some "X" })).2.1)
        1 (some (1000006/1000000)) (some 0) none).2.2 = true ∧
    (reverseGeocode
        ((reverseGeocode [] 0 (some (1000004/1000000)) (some 0)
            (some { address := none, display_name := some "X" })).2.1)
        1 (some (1000006/1000000)) (some 0) none).1 ≠ some "X" := by
  refine ⟨by decide, by decide, by decide, by decide, by decide⟩

unseal Rat.add Rat.sub Rat.mul Rat.inv in
theorem geocode_cache_hit_witness :
    reverseGeocode [] 0 (some 1) (some 2)
        (some { address := none, display_name := some "Springfield" }) =
      (some "Springfield", setCache [] 0 1 2 "Springfield", true) ∧
    cacheKey (1 : ℚ) (2 : ℚ) = cacheKey 1 2 ∧
    ((5:Int) - 0 < CACHE_TTL_MS) ∧
    reverseGeocode (setCache [] 0 1 2 "Springfield") 5 (some 1) (some 2) none =
      (some "Springfield", setCache [] 0 1 2 "Springfield", false) ∧
    (reverseGeocode (setCache [] 0 1 2 "Springfield") 21600000 (some 1) (some 2)
        none).2.2 = true :=
  ⟨by decide, rfl, by decide,
   (geocode_cache_hit_same_key [] 0 5 1 2 1 2
      (some { address := none, display_name := some "Springfield" }) none
      "Springfield" (setCache [] 0 1 2 "Springfield") (by decide) rfl
      (by decide)).1,
   (geocode_cache_hit_same_key [] 0 5 1 2 1 2
      (some { address := none, display_name := some "Springfield" }) none
      "Springfield" (setCache [] 0 1 2 "Springfield") (by decide) rfl
      (by decide)).2 21600000 none (by decide)⟩

theorem reverseGeocode_none_miss {c : Cache} {now : Int} {la lo : ℚ}
    {up : Option NominatimJson}
    (h : (reverseGeocode c now (some la) (some lo) up).1 = none) :
    getCached c now la lo = none ∨ getCached c now la lo = some "" := by
  unfold reverseGeocode at h
  cases hg : getCached c now la lo with
  | none => exact Or.inl rfl
  | some m =>
      by_cases hm : m = ""
      · exact Or.inr (by rw [hm])
      · exfalso
        simp only [hg, if_neg hm] at h
        exact Option.noConfusion h

theorem reverseGeocode_queries_of_miss {c : Cache} {now : Int} {la lo : ℚ}
    {up : Option NominatimJson}
    (h : getCached c now la lo = none ∨ getCached c now la lo = some "") :
    (reverseGeocode c now (some la) (some lo) up).2.2 = true := by
  unfold reverseGeocode
  rcases h with h | h
  · simp only [h]
    cases he : extractName up with
    | some m => by_cases hm : m = "" <;> simp [he, hm]
    | none => simp [he]
  · simp only [h, if_pos rfl]
    cases he : extractName up with
    | some m => by_cases hm : m = "" <;> simp [he, hm]
    | none => simp [he]

theorem getCached_later {c : Cache} {now now2 : Int} {la lo : ℚ}
    (hle : now ≤ now2)
    (h : getCached c now la lo = none ∨ getCached c now la lo = some "") :
    getCached c now2 la lo = none ∨ getCached c now2 la lo = some "" := by
  unfold getCached at h ⊢
  cases hf : c.find? (fun e => decide (e.1 = cacheKey la lo)) with
  | none => exact Or.inl rfl
  | some e =>
      simp only [hf] at h ⊢
      by_cases hfresh2 : now2 - e.2.timestamp < CACHE_TTL_MS
      · rw [if_pos hfresh2]
        have hfresh1 : now - e.2.timestamp < CACHE_TTL_MS := by omega
        rw [if_pos hfresh1] at h
        rcases h with h | h
        · cases h
        · exact Or.inr h
      · rw [if_neg hfresh2]
        exact Or.inl rfl

theorem reverseGeocode_none_cache {c : Cache} {now : Int} {la lo : ℚ}
    {up : Option NominatimJson}
    (h : (reverseGeocode c now (some la) (some lo) up).1 = none) :
    (reverseGeocode c now (some la) (some lo) up).2.1 = c := by
  unfold reverseGeocode at h ⊢
  cases hg : getCached c now la lo with
  | some m =>
      by_cases hm : m = ""
      · simp only [hg, if_pos hm] at h ⊢
        cases he : extractName up with
        | some m2 =>
            by_cases hm2 : m2 = ""
            · simp [he, hm2]
            · simp [he, hm2] at h
        | none => simp [he]
      · simp only [hg, if_neg hm] at h
        exact Option.noConfusion h
  | none =>
      simp only [hg] at h ⊢
      cases he : extractName up with
      | some m2 =>
          by_cases hm2 : m2 = ""
          · simp [he, hm2]
          · simp [he, hm2] at h
      | none => simp [he]

/-- Claim C10: a reverse-geocode call that ends with no name leaves the
cache unchanged — null results are never stored — and such a call did
query the upstream service, as does every later lookup for the same
coordinates. -/
theorem geocode_no_negative_caching (c : Cache) (now : Int) (la lo : ℚ)
    (up : Option NominatimJson)
    (h : (reverseGeocode c now (some la) (some lo) up).1 = none) :
    (reverseGeocode c now (some la) (some lo) up).2.1 = c ∧
    (reverseGeocode c now (some la) (some lo) up).2.2 = true ∧
    (∀ (now2 : Int) (up2 : Option NominatimJson), now ≤ now2 →
        (reverseGeocode c now2 (some la) (some lo) up2).2.2 = true) :=
  ⟨reverseGeocode_none_cache h,
   reverseGeocode_queries_of_miss (reverseGeocode_none_miss h),
   fun _ _ hle =>
     reverseGeocode_queries_of_miss
       (getCached_later hle (reverseGeocode_none_miss h))⟩

unseal Rat.add Rat.sub Rat.mul Rat.inv in
theorem geocode_no_negative_caching_witness :
    (reverseGeocode [] 0 (some 1) (some 2) none).1 = none ∧
    (reverseGeocode [] 0 (some 1) (some 2) none).2.1 = [] ∧
    (reverseGeocode [] 0 (some 1) (some 2) none).2.2 = true ∧
    (reverseGeocode [] 7 (some 1) (some 2)
        (some { address := none, display_name := none })).2.2 = true :=
  ⟨by decide,
   (geocode_no_negative_caching [] 0 1 2 none (by decide)).1,
   (geocode_no_negative_caching [] 0 1 2 none (by decide)).2.1,
   (geocode_no_negative_caching [] 0 1 2 none (by decide)).2.2 7
     (some { address := none, display_name := none }) (by decide)⟩
